import Mathlib

/- The arithmetic of ℚ is irreducible by default, which blocks the
elaborator from evaluating concrete coordinate conversions; the kernel
is unaffected by reducibility, so restoring semireducibility only lets
decide and rfl close concrete goals. -/
set_option allowUnsafeReducibility true in
attribute [semireducible] Rat.sub Rat.add Rat.mul Rat.div Rat.neg Rat.inv Rat.normalize Rat.maybeNormalize

/-! Shallow embedding of the rectangle-labeling tool in src/main.py.

The embedding covers the parts of class ImageLabeler that the
specification talks about: the coordinate conversions (cropPoint,
convertToOriginalImageCoords), the mouse-event state machine
(mousePressEvent, mouseMoveEvent, mouseReleaseEvent), rectangle
normalization (toTLBR), undo (undoLastRectangle), the two export
formats of saveRectangles, and the image-loading pipeline of loadImage
and load_matrix_from_txt.  Widget layout, painting and the text of the
message/record boxes are UI concerns that do not feed back into the
modeled state and are not embedded. -/

/-- Integer point, modeling a PyQt QPoint (integer x and y fields). -/
structure Pt where
  x : Int
  y : Int
  deriving DecidableEq, Repr

/-- Truncation of a rational toward zero.  Python builds QPoint values
from float expressions (main.py lines 329 and 335); the float-to-int
conversion applied there is a C-style cast, i.e. truncation toward
zero, which this function models exactly for rational values. -/
def truncQ (q : ℚ) : Int := q.num.sign * ((q.num.natAbs / q.den : Nat) : Int)

/-- View-dependent quantities read by the event handlers of main.py:
whether a scaled image is currently displayed (the truthiness of
self.scaled_img), the pixel size of the QLabel holding the image, the
scaled image size, the original image size, and the two scroll-bar
values of the scroll area.  All of these are integers in Qt. -/
structure ViewEnv where
  hasImage : Bool
  labelW : Int
  labelH : Int
  scaledW : Int
  scaledH : Int
  origW : Int
  origH : Int
  hScroll : Int
  vScroll : Int
  deriving DecidableEq, Repr

/-- cropPoint (main.py lines 313-317): clamp a point into
[0, original width] x [0, original height]. -/
def cropPoint (env : ViewEnv) (p : Pt) : Pt :=
  ⟨max 0 (min p.x env.origW), max 0 (min p.y env.origH)⟩

/-- convertToOriginalImageCoords (main.py lines 319-337): subtract the
centering offset (labelSize - scaledSize) / 2, add the scroll offsets
(the result is stored in an integer QPoint, so it is truncated), then
multiply by originalSize / scaledSize per axis and truncate again.
The code guards callers with self.scaled_img and self.original_img, so
the original-image branch (line 332) is the one modeled; rational
division is total in Lean, and every theorem below that depends on the
scale factors instantiates them with positive values. -/
def convertToOriginalImageCoords (env : ViewEnv) (p : Pt) : Pt :=
  let offsetX : ℚ := ((env.labelW : ℚ) - (env.scaledW : ℚ)) / 2
  let offsetY : ℚ := ((env.labelH : ℚ) - (env.scaledH : ℚ)) / 2
  let cx : Int := truncQ ((p.x : ℚ) - offsetX + (env.hScroll : ℚ))
  let cy : Int := truncQ ((p.y : ℚ) - offsetY + (env.vScroll : ℚ))
  ⟨truncQ ((cx : ℚ) * ((env.origW : ℚ) / (env.scaledW : ℚ))),
   truncQ ((cy : ℚ) * ((env.origH : ℚ) / (env.scaledH : ℚ)))⟩

/-- Composition used by every handler: convertToOriginalImageCoords
followed by cropPoint (e.g. main.py lines 253-254, 266-267, 275-276). -/
def toOriginal (env : ViewEnv) (p : Pt) : Pt :=
  cropPoint env (convertToOriginalImageCoords env p)

/-- Offset applied by the handlers before conversion:
QPoint(event.pos().x() - 10, event.pos().y() - 10) (lines 252, 265, 274). -/
def offsetCursor (p : Pt) : Pt := ⟨p.x - 10, p.y - 10⟩

/-- Membership test self.imageLabel.rect().contains(event.pos()) used by
mouseMoveEvent and mousePressEvent: QRect(0, 0, w, h).contains is
0 ≤ x ≤ w - 1 and 0 ≤ y ≤ h - 1. -/
def labelContains (env : ViewEnv) (p : Pt) : Bool :=
  decide (0 ≤ p.x ∧ p.x ≤ env.labelW - 1 ∧ 0 ≤ p.y ∧ p.y ≤ env.labelH - 1)

/-- The mutable attributes of class ImageLabeler that the modeled
operations read or write: the loaded pixel grid meta_img (rows of
pixels of 3 channel bytes), the drag state and the committed rectangle
list.  initUI creates message/record text widgets but no statusLabel
attribute, which matters for the invalid-shape branch of loadImage. -/
structure Labeler where
  meta_img : Option (List (List (List Int)))
  start_point : Pt
  end_point : Pt
  is_drawing : Bool
  rectangles : List (Pt × Pt)
  min_rect_area : Int
  deriving DecidableEq, Repr

/-- Initial state set by ImageLabeler.__init__ (main.py lines 30-45):
QPoint() is the origin, is_drawing is False, rectangles is empty and
min_rect_area is 10. -/
def initLabeler : Labeler :=
  { meta_img := none
    start_point := ⟨0, 0⟩
    end_point := ⟨0, 0⟩
    is_drawing := false
    rectangles := []
    min_rect_area := 10 }

/-- toTLBR (main.py lines 233-236): t, l, b, r are the componentwise
min/max of the two corners and the result is (QPoint(l, t), QPoint(r, b)). -/
def toTLBR (p1 p2 : Pt) : Pt × Pt :=
  (⟨min p1.x p2.x, min p1.y p2.y⟩, ⟨max p1.x p2.x, max p1.y p2.y⟩)

/-- Mouse button carried by a Qt mouse event; the handlers only test
equality with Qt.LeftButton. -/
inductive MouseButton where
  | left
  | right
  deriving DecidableEq, Repr

/-- mousePressEvent (main.py lines 262-269): on a left press with an
image displayed and the position inside the label rect, enter drawing
state with start = end = the converted and cropped position. -/
def mousePressEvent (env : ViewEnv) (s : Labeler) (button : MouseButton) (pos : Pt) : Labeler :=
  if button = MouseButton.left ∧ env.hasImage = true ∧ labelContains env pos = true then
    let p := toOriginal env (offsetCursor pos)
    { s with is_drawing := true, start_point := p, end_point := p }
  else s

/-- mouseMoveEvent (main.py lines 249-260): only when an image is
displayed and the position is inside the label rect, and only while
is_drawing, the end point is updated; otherwise the state is
unchanged (the handler then only rewrites a UI label). -/
def mouseMoveEvent (env : ViewEnv) (s : Labeler) (pos : Pt) : Labeler :=
  if env.hasImage = true ∧ labelContains env pos = true then
    if s.is_drawing = true then
      { s with end_point := toOriginal env (offsetCursor pos) }
    else s
  else s

/-- mouseReleaseEvent (main.py lines 271-283): on a left release while
drawing (no viewport-containment test), leave drawing state, set the
end point from the release position, and append toTLBR(start, end) to
the list exactly when abs(dx) * abs(dy) is strictly greater than
min_rect_area. -/
def mouseReleaseEvent (env : ViewEnv) (s : Labeler) (button : MouseButton) (pos : Pt) : Labeler :=
  if button = MouseButton.left ∧ s.is_drawing = true then
    let e := toOriginal env (offsetCursor pos)
    if |e.x - s.start_point.x| * |e.y - s.start_point.y| > s.min_rect_area then
      { s with is_drawing := false, end_point := e,
               rectangles := s.rectangles ++ [toTLBR s.start_point e] }
    else { s with is_drawing := false, end_point := e }
  else s

/-- undoLastRectangle (main.py lines 169-173): pop the last list entry
when the list is non-empty; the other attributes are untouched. -/
def undoLastRectangle (s : Labeler) : Labeler :=
  if 0 < s.rectangles.length then { s with rectangles := s.rectangles.dropLast } else s

/-- One record of the JSON export of saveRectangles (main.py lines
182-193): id, then tlbw = [min of the y coordinates, min of the x
coordinates, max of the y coordinates, max of the x coordinates]. -/
def jsonRecordOf (idx : Nat) (rect : Pt × Pt) : Nat × List Int :=
  ( idx,
    [ min rect.1.y rect.2.y, min rect.1.x rect.2.x,
      max rect.1.y rect.2.y, max rect.1.x rect.2.x ] )

/-- The loop for idx, rect in enumerate(self.rectangles, start=1) of
the JSON branch of saveRectangles, with explicit running index. -/
def jsonExportFrom (idx : Nat) : List (Pt × Pt) → List (Nat × List Int)
  | [] => []
  | r :: rs => jsonRecordOf idx r :: jsonExportFrom (idx + 1) rs

/-- JSON export of saveRectangles (main.py lines 180-198): the ordered
rects records, ids starting at 1. -/
def jsonExport (rects : List (Pt × Pt)) : List (Nat × List Int) :=
  jsonExportFrom 1 rects

/-- Text export of saveRectangles (main.py lines 201-205): one line per
rectangle, the four integers rect[0].x rect[0].y rect[1].x rect[1].y. -/
def txtExport (rects : List (Pt × Pt)) : List (List Int) :=
  rects.map fun r => [r.1.x, r.1.y, r.2.x, r.2.y]

/-- Swap the two entries of each coordinate pair of a four-element
list; relates the JSON order [t, l, b, r] to the txt order [l, t, r, b]. -/
def swapPairs : List Int → List Int
  | [a, b, c, d] => [b, a, d, c]
  | l => l

/-- Faults the load path can raise: np.min/np.max of an empty array
raise ValueError (reached from main.py line 144 when the parsed matrix
has no element), and the invalid-shape branch (line 154) evaluates
self.statusLabel which was never created by initUI, raising
AttributeError. -/
inductive LoadErr where
  | valueErrorEmptyReduce
  | attributeErrorNoStatusLabel
  deriving DecidableEq, Repr

/-- Global minimum of a matrix given as rows, as np.min computes it;
the default 0 is only returned for an empty matrix, on which the code
raises instead. -/
def matMin (rows : List (List ℚ)) : ℚ :=
  match rows.flatten with
  | [] => 0
  | x :: xs => xs.foldl min x

/-- Global maximum of a matrix given as rows, as np.max computes it. -/
def matMax (rows : List (List ℚ)) : ℚ :=
  match rows.flatten with
  | [] => 0
  | x :: xs => xs.foldl max x

/-- Conversion of a normalized value to a byte as (mat * 255).astype(np.uint8)
performs it (main.py line 158): C-style truncation toward zero, then
wraparound modulo 256. -/
def byteOf (q : ℚ) : Int := truncQ (q * 255) % 256

/-- The 2-dimensional load path of loadImage (main.py lines 144-158):
min-max normalize every value, promote to 3 channels with the value in
channel 0 and channels 1-2 zero, scale by 255 and cast to bytes. -/
def loadImage2D (rows : List (List ℚ)) : List (List (List Int)) :=
  let mn := matMin rows
  let mx := matMax rows
  rows.map fun r => r.map fun v => [byteOf ((v - mn) / (mx - mn)), 0, 0]

/-- Channel value at row i, column j, channel c of a loaded pixel grid,
with 0 outside the grid. -/
def chanAt (grid : List (List (List Int))) (i j c : Nat) : Int :=
  ((grid.getD i []).getD j []).getD c 0

/-- Shape of np.array(matrix) for the row list produced by
load_matrix_from_txt (main.py lines 239-247): an empty row list gives
the 1-dimensional shape (0,), and a non-empty rectangular row list of
n rows of length m gives (n, m). -/
def load_matrix_shape (rows : List (List ℚ)) : List Nat :=
  match rows with
  | [] => [0]
  | r :: rs => [rs.length + 1, r.length]

/-- Well-formedness of a parsed input file as the numpy model requires:
every row has the length of the first row. -/
def rectangularRows (rows : List (List ℚ)) : Prop :=
  ∀ r ∈ rows, r.length = (rows.headD []).length

instance (rows : List (List ℚ)) : Decidable (rectangularRows rows) :=
  inferInstanceAs (Decidable (∀ r ∈ rows, r.length = (rows.headD []).length))

/-- The three shape branches of loadImage (main.py lines 145-152). -/
inductive LoadBranch where
  | promote2D
  | promote3D1
  | passthrough3
  deriving DecidableEq, Repr

/-- Shape dispatch of loadImage (main.py lines 145-155): 2-dimensional
arrays are promoted, 3-dimensional arrays with 1 or 3 channels take
their branches, and everything else runs the else branch, which
evaluates the nonexistent attribute self.statusLabel and therefore
raises AttributeError. -/
def loadDispatch (shape : List Nat) : Except LoadErr LoadBranch :=
  if shape.length = 2 then Except.ok LoadBranch.promote2D
  else if shape.length = 3 ∧ shape.getD 2 0 = 1 then Except.ok LoadBranch.promote3D1
  else if shape.length = 3 ∧ shape.getD 2 0 = 3 then Except.ok LoadBranch.passthrough3
  else Except.error LoadErr.attributeErrorNoStatusLabel

/-- loadImage (main.py lines 140-167) on a successfully chosen file
whose parsed rows come from load_matrix_from_txt.  Such a matrix is at
most 2-dimensional, so after min-max normalization (which raises
ValueError on an empty matrix, before the shape dispatch is reached)
the 2-dimensional promotion branch runs and the pixel grid is stored;
the rectangle and drag attributes are not touched anywhere in the
method. -/
def loadImage (s : Labeler) (rows : List (List ℚ)) : Except LoadErr Labeler :=
  if rows.flatten = [] then Except.error LoadErr.valueErrorEmptyReduce
  else Except.ok { s with meta_img := some (loadImage2D rows) }

/-- Predicate of §3 of the spec on a stored rectangle: the first corner
is the top-left one. -/
def normalizedRect (r : Pt × Pt) : Prop :=
  r.1.x ≤ r.2.x ∧ r.1.y ≤ r.2.y

instance (r : Pt × Pt) : Decidable (normalizedRect r) :=
  inferInstanceAs (Decidable (r.1.x ≤ r.2.x ∧ r.1.y ≤ r.2.y))

/-- Invariant: every committed rectangle of a session is normalized. -/
def sessionNormalized (s : Labeler) : Prop :=
  ∀ r ∈ s.rectangles, normalizedRect r

instance (s : Labeler) : Decidable (sessionNormalized s) :=
  inferInstanceAs (Decidable (∀ r ∈ s.rectangles, normalizedRect r))

/-- Concrete view used by witnesses: a 100 x 100 image displayed at
100 percent zoom, the label adjusted to the pixmap size, no scrolling. -/
def envA : ViewEnv :=
  { hasImage := true, labelW := 100, labelH := 100, scaledW := 100, scaledH := 100,
    origW := 100, origH := 100, hScroll := 0, vScroll := 0 }

/-- Concrete session used by witnesses: a drag in progress starting at
(10, 10) with no committed rectangle yet. -/
def sessA : Labeler :=
  { initLabeler with is_drawing := true, start_point := ⟨10, 10⟩, end_point := ⟨10, 10⟩ }

/-- Concrete session with one committed rectangle. -/
def sessB : Labeler :=
  { initLabeler with rectangles := [(⟨1, 2⟩, ⟨5, 9⟩)] }

/-- Concrete session mid-drag whose last valid end point is (5, 5). -/
def sessC : Labeler :=
  { initLabeler with is_drawing := true, start_point := ⟨10, 10⟩, end_point := ⟨5, 5⟩ }

/-- Concrete 2 x 2 matrix with distinct values. -/
def rowsB : List (List ℚ) := [[0, 0], [0, 5]]

/-- The 4 x 4 matrix of the load-normalize scenario. -/
def rowsC8 : List (List ℚ) :=
  [[0, 0, 0, 0], [0, 5, 5, 0], [0, 5, 5, 0], [0, 0, 0, 0]]

/-- State after loading rowsB over sessB. -/
def lblLoaded : Labeler := { sessB with meta_img := some (loadImage2D rowsB) }

/-- Helper: toTLBR output is always normalized. -/
theorem toTLBR_normalized (p1 p2 : Pt) : normalizedRect (toTLBR p1 p2) :=
  ⟨min_le_max, min_le_max⟩

/-- C3: the display-to-original conversion toOriginal
(convertToOriginalImageCoords followed by cropPoint) always lands in
[0, imageWidth] x [0, imageHeight], for every input point, including
negative or over-large ones; the conversion is a total function, and
out-of-bounds input is simply clamped. -/
theorem toOriginal_within_image_bounds (env : ViewEnv) (p : Pt)
    (hw : 0 ≤ env.origW) (hh : 0 ≤ env.origH) :
    0 ≤ (toOriginal env p).x ∧ (toOriginal env p).x ≤ env.origW ∧
    0 ≤ (toOriginal env p).y ∧ (toOriginal env p).y ≤ env.origH := by
  unfold toOriginal cropPoint
  exact ⟨le_max_left 0 _, max_le hw (min_le_right _ _),
         le_max_left 0 _, max_le hh (min_le_right _ _)⟩

/-- Witness for C3 at a far out-of-bounds display point. -/
theorem toOriginal_within_image_bounds_witness :
    0 ≤ (toOriginal envA ⟨-5000, 99999⟩).x ∧ (toOriginal envA ⟨-5000, 99999⟩).x ≤ envA.origW ∧
    0 ≤ (toOriginal envA ⟨-5000, 99999⟩).y ∧ (toOriginal envA ⟨-5000, 99999⟩).y ≤ envA.origH :=
  toOriginal_within_image_bounds envA ⟨-5000, 99999⟩ (by decide) (by decide)

/-- C1: on a left-button release ending a drag, the handler computes
area = abs(end.x - start.x) * abs(end.y - start.y) with end the
converted release position, and appends toTLBR(start, end) exactly
when area is strictly greater than min_rect_area (whose default in
__init__ is 10); a drag of area equal to the threshold leaves the list
unchanged, and area = threshold + 1 is accepted, as the two concrete
conjuncts show (converted ends (20, 11) and (21, 11) from start
(10, 10), areas 10 and 11). -/
theorem mouseRelease_commits_iff_area_gt_min (env : ViewEnv) (s : Labeler) (pos : Pt)
    (hd : s.is_drawing = true) :
    initLabeler.min_rect_area = 10 ∧
    ( |(toOriginal env (offsetCursor pos)).x - s.start_point.x| *
      |(toOriginal env (offsetCursor pos)).y - s.start_point.y| > s.min_rect_area →
        (mouseReleaseEvent env s MouseButton.left pos).rectangles
          = s.rectangles ++ [toTLBR s.start_point (toOriginal env (offsetCursor pos))] ) ∧
    ( |(toOriginal env (offsetCursor pos)).x - s.start_point.x| *
      |(toOriginal env (offsetCursor pos)).y - s.start_point.y| ≤ s.min_rect_area →
        (mouseReleaseEvent env s MouseButton.left pos).rectangles = s.rectangles ) ∧
    toOriginal envA (offsetCursor ⟨30, 21⟩) = ⟨20, 11⟩ ∧
    |(20 : Int) - 10| * |(11 : Int) - 10| = sessA.min_rect_area ∧
    (mouseReleaseEvent envA sessA MouseButton.left ⟨30, 21⟩).rectangles = sessA.rectangles ∧
    toOriginal envA (offsetCursor ⟨31, 21⟩) = ⟨21, 11⟩ ∧
    |(21 : Int) - 10| * |(11 : Int) - 10| = sessA.min_rect_area + 1 ∧
    (mouseReleaseEvent envA sessA MouseButton.left ⟨31, 21⟩).rectangles
      = sessA.rectangles ++ [toTLBR ⟨10, 10⟩ ⟨21, 11⟩] := by
  refine ⟨rfl, ?_, ?_, by decide, by decide, by decide, by decide, by decide, by decide⟩
  · intro h
    unfold mouseReleaseEvent
    split
    · dsimp only
      split
      · rfl
      · next hlt => exact absurd h hlt
    · next hcond => exact absurd ⟨rfl, hd⟩ hcond
  · intro h
    unfold mouseReleaseEvent
    split
    · dsimp only
      split
      · next hgt => exact absurd hgt (not_lt.mpr h)
      · rfl
    · next hcond => exact absurd ⟨rfl, hd⟩ hcond

/-- Witness for C1: a drag from (10, 10) released at display point
(35, 30), converted end (25, 20), area 150 > 10, is committed. -/
theorem mouseRelease_commits_iff_area_gt_min_witness :
    sessA.is_drawing = true ∧
    (mouseReleaseEvent envA sessA MouseButton.left ⟨35, 30⟩).rectangles
      = sessA.rectangles ++ [toTLBR sessA.start_point (toOriginal envA (offsetCursor ⟨35, 30⟩))] :=
  ⟨rfl, (mouseRelease_commits_iff_area_gt_min envA sessA ⟨35, 30⟩ rfl).2.1 (by decide)⟩

/-- C2: toTLBR always yields a normalized rectangle (first corner
top-left, second bottom-right), and the normalization invariant on the
committed list is preserved by the commit performed on mouse release,
by undo, and by the press and move handlers; the two exports are pure
functions of the list and mutate nothing.  A rectangle therefore is
never stored in raw drag order. -/
theorem committed_rects_normalized_invariant :
    (∀ p1 p2 : Pt, normalizedRect (toTLBR p1 p2)) ∧
    (∀ (env : ViewEnv) (s : Labeler) (b : MouseButton) (pos : Pt),
        sessionNormalized s → sessionNormalized (mouseReleaseEvent env s b pos)) ∧
    (∀ s : Labeler, sessionNormalized s → sessionNormalized (undoLastRectangle s)) ∧
    (∀ (env : ViewEnv) (s : Labeler) (b : MouseButton) (pos : Pt),
        sessionNormalized s → sessionNormalized (mousePressEvent env s b pos)) ∧
    (∀ (env : ViewEnv) (s : Labeler) (pos : Pt),
        sessionNormalized s → sessionNormalized (mouseMoveEvent env s pos)) := by
  refine ⟨fun p1 p2 => toTLBR_normalized p1 p2, ?_, ?_, ?_, ?_⟩
  · intro env s b pos hs
    unfold mouseReleaseEvent
    split
    · dsimp only
      split
      · intro r hr
        rcases List.mem_append.mp hr with hI | hN
        · exact hs r hI
        · have h := List.mem_singleton.mp hN
          subst h
          exact toTLBR_normalized _ _
      · exact hs
    · exact hs
  · intro s hs
    unfold undoLastRectangle
    split
    · intro r hr
      exact hs r (List.dropLast_subset _ hr)
    · exact hs
  · intro env s b pos hs
    unfold mousePressEvent
    split
    · exact hs
    · exact hs
  · intro env s pos hs
    unfold mouseMoveEvent
    split
    · split
      · exact hs
      · exact hs
    · exact hs

/-- Witness for C2: the invariant holds on a session with one
committed rectangle and still holds after a commit on release. -/
theorem committed_rects_normalized_invariant_witness :
    sessionNormalized sessB ∧
    sessionNormalized (mouseReleaseEvent envA sessB MouseButton.left ⟨35, 30⟩) :=
  ⟨by decide,
   committed_rects_normalized_invariant.2.1 envA sessB MouseButton.left ⟨35, 30⟩ (by decide)⟩

/-- C7: undoLastRectangle is the identity on a session with an empty
committed list; on a list l ++ [r] it leaves exactly l (the earlier
rectangles, unchanged and in order, with the most recent one removed);
and it never touches the drag state (is_drawing, start, end), the
threshold or the image. -/
theorem undo_removes_last_committed :
    (∀ s : Labeler, s.rectangles = [] → undoLastRectangle s = s) ∧
    (∀ (s : Labeler) (l : List (Pt × Pt)) (r : Pt × Pt),
        s.rectangles = l ++ [r] → (undoLastRectangle s).rectangles = l) ∧
    (∀ s : Labeler,
        (undoLastRectangle s).is_drawing = s.is_drawing ∧
        (undoLastRectangle s).start_point = s.start_point ∧
        (undoLastRectangle s).end_point = s.end_point ∧
        (undoLastRectangle s).min_rect_area = s.min_rect_area ∧
        (undoLastRectangle s).meta_img = s.meta_img) := by
  refine ⟨?_, ?_, ?_⟩
  · intro s h
    unfold undoLastRectangle
    rw [if_neg]
    simp [h]
  · intro s l r h
    unfold undoLastRectangle
    rw [if_pos]
    · show s.rectangles.dropLast = l
      rw [h]
      exact List.dropLast_concat
    · simp [h]
  · intro s
    unfold undoLastRectangle
    split
    · exact ⟨rfl, rfl, rfl, rfl, rfl⟩
    · exact ⟨rfl, rfl, rfl, rfl, rfl⟩

/-- Witness for C7: undoing the single committed rectangle of sessB
leaves the empty list. -/
theorem undo_removes_last_committed_witness :
    sessB.rectangles = [] ++ [(⟨1, 2⟩, ⟨5, 9⟩)] ∧
    (undoLastRectangle sessB).rectangles = [] :=
  ⟨by decide, undo_removes_last_committed.2.1 sessB [] (⟨1, 2⟩, ⟨5, 9⟩) (by decide)⟩

/-- Helper for C5: the JSON records starting at index k line up with
the txt lines, each record carrying its 1-based position and the txt
line with its two coordinate pairs swapped, provided the stored
rectangles are normalized. -/
theorem jsonExportFrom_getD (k : Nat) (rects : List (Pt × Pt)) (i : Nat)
    (hn : ∀ r ∈ rects, normalizedRect r) (hi : i < rects.length) :
    (jsonExportFrom k rects).getD i (0, []) =
      (k + i, swapPairs ((txtExport rects).getD i [])) := by
  induction rects generalizing k i with
  | nil => exact absurd hi (by simp)
  | cons r rs ih =>
    cases i with
    | zero =>
      have hr : normalizedRect r := hn r (List.mem_cons_self r rs)
      simp only [jsonExportFrom, txtExport, List.map_cons, List.getD_cons_zero, Nat.add_zero]
      simp only [jsonRecordOf, swapPairs]
      rw [min_eq_left hr.2, min_eq_left hr.1, max_eq_right hr.2, max_eq_right hr.1]
    | succ i =>
      have hn2 : ∀ q ∈ rs, normalizedRect q := fun q hq => hn q (List.mem_cons_of_mem r hq)
      have hi2 : i < rs.length := by simpa using hi
      have := ih (k + 1) i hn2 hi2
      simp only [jsonExportFrom, txtExport, List.map_cons, List.getD_cons_succ]
      rw [this]
      simp only [txtExport]
      congr 1
      omega

/-- C5 counterexample: for the committed (normalized) rectangle with
top-left (1, 2) and bottom-right (5, 9), the JSON record's tlbw list is
[2, 1, 9, 5] while the txt line is [1, 2, 5, 9]: the two exports do not
put the four integers in the same order. -/
theorem json_txt_export_order_cex :
    normalizedRect ((⟨1, 2⟩ : Pt), (⟨5, 9⟩ : Pt)) ∧
    ((jsonExport [((⟨1, 2⟩ : Pt), (⟨5, 9⟩ : Pt))]).getD 0 (0, [])).2 = [2, 1, 9, 5] ∧
    (txtExport [((⟨1, 2⟩ : Pt), (⟨5, 9⟩ : Pt))]).getD 0 [] = [1, 2, 5, 9] ∧
    ((jsonExport [((⟨1, 2⟩ : Pt), (⟨5, 9⟩ : Pt))]).getD 0 (0, [])).2
      ≠ (txtExport [((⟨1, 2⟩ : Pt), (⟨5, 9⟩ : Pt))]).getD 0 [] := by
  refine ⟨by decide, by decide, by decide, by decide⟩

/-- C5 amended: for the same committed rectangle list (every entry
normalized, as commit guarantees), the i-th JSON record carries id
i + 1 and the same four integers as the i-th txt line, but with the
pairs swapped: tlbw is [top, left, bottom, right] while the txt line is
[left, top, right, bottom]. -/
theorem json_txt_export_pair_swapped (rects : List (Pt × Pt)) (i : Nat)
    (hn : ∀ r ∈ rects, normalizedRect r) (hi : i < rects.length) :
    (jsonExport rects).getD i (0, []) =
      (i + 1, swapPairs ((txtExport rects).getD i [])) := by
  rw [jsonExport, jsonExportFrom_getD 1 rects i hn hi, Nat.add_comm]

/-- Witness for C5 at the one-rectangle list of sessB. -/
theorem json_txt_export_pair_swapped_witness :
    (jsonExport [((⟨1, 2⟩ : Pt), (⟨5, 9⟩ : Pt))]).getD 0 (0, []) =
      (1, swapPairs ((txtExport [((⟨1, 2⟩ : Pt), (⟨5, 9⟩ : Pt))]).getD 0 [])) :=
  json_txt_export_pair_swapped [((⟨1, 2⟩ : Pt), (⟨5, 9⟩ : Pt))] 0 (by decide) (by decide)

/-- C4 counterexample: sessB holds one committed rectangle; loading the
valid matrix rowsB completes (returns ok) and the rectangle is still
committed afterwards, so an image load does not clear the session. -/
theorem loadImage_preserves_rectangles_cex :
    sessB.rectangles = [((⟨1, 2⟩ : Pt), (⟨5, 9⟩ : Pt))] ∧
    (loadImage sessB rowsB).map (fun l => l.rectangles)
      = Except.ok [((⟨1, 2⟩ : Pt), (⟨5, 9⟩ : Pt))] :=
  ⟨rfl, rfl⟩

/-- C4 amended: a completed image load never modifies the committed
rectangle list or the drag state; every rectangle committed before the
load remains afterwards (loadImage performs no session reset). -/
theorem loadImage_preserves_rectangles (s : Labeler) (rows : List (List ℚ)) (s2 : Labeler)
    (h : loadImage s rows = Except.ok s2) :
    s2.rectangles = s.rectangles ∧ s2.is_drawing = s.is_drawing ∧
    s2.start_point = s.start_point ∧ s2.end_point = s.end_point ∧
    s2.min_rect_area = s.min_rect_area := by
  unfold loadImage at h
  split at h
  · exact absurd h (by simp)
  · cases h
    exact ⟨rfl, rfl, rfl, rfl, rfl⟩

/-- Witness for C4 amended at the concrete load of rowsB over sessB. -/
theorem loadImage_preserves_rectangles_witness :
    loadImage sessB rowsB = Except.ok lblLoaded ∧ lblLoaded.rectangles = sessB.rectangles :=
  ⟨rfl, (loadImage_preserves_rectangles sessB rowsB lblLoaded rfl).1⟩

/-- C6: a matrix whose channel count is neither 1 nor 3, such as one
of shape (2, 2, 2), falls through to the else branch of the shape
dispatch, which evaluates self.statusLabel; initUI never creates a
statusLabel attribute, so the branch raises AttributeError instead of
surfacing a diagnostic, and the fault propagates to the caller (the
image state and the session are indeed left untouched, the exception
being raised before any assignment). -/
theorem invalid_shape_raises_attribute_error :
    loadDispatch [2, 2, 2] = Except.error LoadErr.attributeErrorNoStatusLabel ∧
    loadDispatch [4, 4] = Except.ok LoadBranch.promote2D ∧
    loadDispatch [4, 4, 1] = Except.ok LoadBranch.promote3D1 ∧
    loadDispatch [4, 4, 3] = Except.ok LoadBranch.passthrough3 := by
  refine ⟨rfl, rfl, rfl, rfl⟩

/-- Helper for C8: mapping any per-value function into channel 0 with
channels 1 and 2 zeroed yields 0 at channel 1 and 2 of every position. -/
theorem getD_triple_chan (g : ℚ → Int) (rows : List (List ℚ)) (i j : Nat) :
    (((rows.map (fun r => r.map (fun v => [g v, 0, 0]))).getD i []).getD j []).getD 1 0 = 0 ∧
    (((rows.map (fun r => r.map (fun v => [g v, 0, 0]))).getD i []).getD j []).getD 2 0 = 0 := by
  induction rows generalizing i with
  | nil => simp [List.getD]
  | cons r rs ih =>
    cases i with
    | zero =>
      clear ih
      simp only [List.map_cons, List.getD_cons_zero]
      induction r generalizing j with
      | nil => simp [List.getD]
      | cons v vs ihr =>
        cases j with
        | zero => simp [List.getD]
        | succ j => simpa using ihr j
    | succ i => simpa using ih i

set_option maxRecDepth 40000 in
/-- C8: the load path promotes single-channel data so that channels 1
and 2 are zero at every position of every matrix, and on the concrete
4 x 4 matrix rowsC8 the min-max normalization (min 0, max 5) followed by
the times-255 byte cast puts 0 in channel 0 at the four corners and 255
at the four center pixels. -/
theorem load_normalize_scenario :
    (∀ (rows : List (List ℚ)) (i j : Nat),
        chanAt (loadImage2D rows) i j 1 = 0 ∧ chanAt (loadImage2D rows) i j 2 = 0) ∧
    chanAt (loadImage2D rowsC8) 0 0 0 = 0 ∧ chanAt (loadImage2D rowsC8) 0 3 0 = 0 ∧
    chanAt (loadImage2D rowsC8) 3 0 0 = 0 ∧ chanAt (loadImage2D rowsC8) 3 3 0 = 0 ∧
    chanAt (loadImage2D rowsC8) 1 1 0 = 255 ∧ chanAt (loadImage2D rowsC8) 1 2 0 = 255 ∧
    chanAt (loadImage2D rowsC8) 2 1 0 = 255 ∧ chanAt (loadImage2D rowsC8) 2 2 0 = 255 := by
  refine ⟨?_, by decide, by decide, by decide, by decide,
          by decide, by decide, by decide, by decide⟩
  intro rows i j
  exact getD_triple_chan
    (fun v => byteOf ((v - matMin rows) / (matMax rows - matMin rows))) rows i j

/-- C9 counterexample: sessC is mid-drag with last valid end point
(5, 5); a left-button release at (2000, 2000), far outside the 100 x 100
label rect, still updates the end point, to the converted and clamped
(100, 100): release events are not ignored outside the viewport. -/
theorem release_outside_viewport_updates_end_cex :
    sessC.is_drawing = true ∧
    sessC.end_point = ⟨5, 5⟩ ∧
    labelContains envA ⟨2000, 2000⟩ = false ∧
    (mouseReleaseEvent envA sessC MouseButton.left ⟨2000, 2000⟩).end_point = ⟨100, 100⟩ ∧
    (mouseReleaseEvent envA sessC MouseButton.left ⟨2000, 2000⟩).end_point ≠ sessC.end_point := by
  refine ⟨rfl, rfl, by decide, by decide, by decide⟩

/-- C9 amended: while a drag is in progress, pointer-move events
outside the viewport never update the drag end (the whole state is
retained, and being a total function the handler cannot fault), but
the left-button release always recomputes the end point from the
release position, converted and clamped, wherever the release happens. -/
theorem move_outside_ignored_release_updates :
    (∀ (env : ViewEnv) (s : Labeler) (pos : Pt), labelContains env pos = false →
        mouseMoveEvent env s pos = s) ∧
    (∀ (env : ViewEnv) (s : Labeler) (pos : Pt), s.is_drawing = true →
        (mouseReleaseEvent env s MouseButton.left pos).end_point
          = toOriginal env (offsetCursor pos)) := by
  constructor
  · intro env s pos h
    unfold mouseMoveEvent
    rw [if_neg]
    simp [h]
  · intro env s pos hd
    unfold mouseReleaseEvent
    split
    · dsimp only
      split
      · rfl
      · rfl
    · next hcond => exact absurd ⟨rfl, hd⟩ hcond

/-- Witness for C9 amended: the move at the out-of-viewport position
(2000, 2000) leaves sessC unchanged. -/
theorem move_outside_ignored_release_updates_witness :
    labelContains envA ⟨2000, 2000⟩ = false ∧
    mouseMoveEvent envA sessC ⟨2000, 2000⟩ = sessC :=
  ⟨by decide, move_outside_ignored_release_updates.1 envA sessC ⟨2000, 2000⟩ (by decide)⟩

/-- C10 counterexample: the empty file is well formed (it vacuously
has all lines of equal length) yet load_matrix_from_txt produces
np.array([]), of 1-dimensional shape (0,), not a 2-dimensional matrix. -/
theorem load_matrix_empty_file_1d_cex :
    rectangularRows ([] : List (List ℚ)) ∧
    load_matrix_shape ([] : List (List ℚ)) = [0] ∧
    (load_matrix_shape ([] : List (List ℚ))).length = 1 := by
  refine ⟨by decide, rfl, rfl⟩

/-- C10 amended: for every well-formed input file with at least one
line, load_matrix_from_txt yields a 2-dimensional matrix and the shape
dispatch of loadImage selects the 2-D single-channel promotion branch;
and no file-loadable shape whatsoever can reach the explicit 3-channel
passthrough or the 3-D single-channel branch. -/
theorem load_matrix_2d_branch (rows : List (List ℚ)) (hrect : rectangularRows rows)
    (hne : rows ≠ []) :
    (load_matrix_shape rows).length = 2 ∧
    loadDispatch (load_matrix_shape rows) = Except.ok LoadBranch.promote2D ∧
    (∀ rows2 : List (List ℚ),
        loadDispatch (load_matrix_shape rows2) ≠ Except.ok LoadBranch.promote3D1 ∧
        loadDispatch (load_matrix_shape rows2) ≠ Except.ok LoadBranch.passthrough3) := by
  refine ⟨?_, ?_, ?_⟩
  · cases rows with
    | nil => exact absurd rfl hne
    | cons r rs => rfl
  · cases rows with
    | nil => exact absurd rfl hne
    | cons r rs => rfl
  · intro rows2
    cases rows2 with
    | nil =>
      exact ⟨by simp [load_matrix_shape, loadDispatch],
             by simp [load_matrix_shape, loadDispatch]⟩
    | cons r rs =>
      exact ⟨by simp [load_matrix_shape, loadDispatch],
             by simp [load_matrix_shape, loadDispatch]⟩

/-- Witness for C10 amended at the concrete 2 x 2 matrix rowsB. -/
theorem load_matrix_2d_branch_witness :
    rectangularRows rowsB ∧ (load_matrix_shape rowsB).length = 2 ∧
    loadDispatch (load_matrix_shape rowsB) = Except.ok LoadBranch.promote2D := by
  have h := load_matrix_2d_branch rowsB (by decide) (by decide)
  exact ⟨by decide, h.1, h.2.1⟩
